import Mathlib

/-!
Shallow embedding of the shift-scheduling CRUD service (src/database/app.py)
over the sqlite schema created by src/database/database.py.

The store is modelled as an explicit `DB` value threaded through each route
handler.  Machine-level details that the handlers never observe are abstracted:
datetimes are points on an integer timeline, the store clock that fills the
`CURRENT_TIMESTAMP` defaults is a natural number, and a row id is the value of
the table's autoincrement counter at insertion.  Times of day keep python's
`datetime.time` components (hour, minute, second, microsecond).  Connection
establishment (`create_connection`) either yields a handle or `None`; the
boolean `connOk` passed to every handler models which of the two happened.
-/

/-- python `datetime.time`: the fields a `time` value carries and that
`strftime("%H:%M:%S")` reads (the format drops the microsecond). -/
structure TimeOfDay where
  hour : Nat
  minute : Nat
  second : Nat
  microsecond : Nat
deriving DecidableEq, Repr

/-- The ASCII digit character for `n % 10`. -/
def digitChar (n : Nat) : Char :=
  Char.ofNat (48 + n % 10)

/-- Zero-padded two-digit decimal rendering, as `%H` / `%M` / `%S` produce for
the in-range components of a valid `datetime.time`. -/
def twoDigits (n : Nat) : String :=
  String.mk [digitChar (n / 10), digitChar n]

/-- `t.strftime("%H:%M:%S")`: the canonical `HH:MM:SS` rendering used by
`create_employee_availability` before both the duplicate check and the
insert. -/
def strftimeHMS (t : TimeOfDay) : String :=
  twoDigits t.hour ++ ":" ++ twoDigits t.minute ++ ":" ++ twoDigits t.second

/-- python `str.strip()`: drop leading and trailing whitespace. -/
def pyStrip (s : String) : String :=
  String.mk (((s.data.dropWhile Char.isWhitespace).reverse.dropWhile
    Char.isWhitespace).reverse)

/-- One piece of the email regular expression `[^@]+@[^@]+\.[^@]+` from
`create_employee`: either the one-or-more-non-`@` class or a literal
character. -/
inductive RTok where
  | nonAtPlus
  | lit (c : Char)
deriving DecidableEq, Repr

/-- Backtracking matcher for a token list against a prefix of the input, the
semantics of python's `re.match` for this pattern: `re.match` anchors at the
start of the string only, so trailing unmatched input is accepted (an empty
token list matches any remainder).  `[^@]+ rest` matches one non-`@` character
followed by either `rest` or `[^@]+ rest` again. -/
def reMatch : List RTok → List Char → Bool
  | [], _ => true
  | .lit _ :: _, [] => false
  | .lit c :: ps, x :: xs => x = c && reMatch ps xs
  | .nonAtPlus :: _, [] => false
  | .nonAtPlus :: ps, x :: xs =>
      !(x = '@') && (reMatch ps xs || reMatch (.nonAtPlus :: ps) xs)

/-- The pattern `[^@]+@[^@]+\.[^@]+` of `create_employee`'s email check. -/
def emailPattern : List RTok :=
  [.nonAtPlus, .lit '@', .nonAtPlus, .lit '.', .nonAtPlus]

/-! ### Pydantic request/response models (app.py) -/

/-- Pydantic model `Role`. -/
structure Role where
  ID : Option Nat
  RoleName : String
  Description : Option String
  Created_At : Option Nat
  Updated_At : Option Nat
deriving DecidableEq, Repr

/-- Pydantic model `Shift`; `StartTime`/`EndTime` are datetimes, modelled as
points on an integer timeline ordered as python orders datetimes. -/
structure Shift where
  ID : Option Nat
  RoleID : Nat
  Description : Option String
  StartTime : Int
  EndTime : Int
  EmployeeID : Option Nat
  CreatedAt : Option Nat
  UpdatedAt : Option Nat
deriving DecidableEq, Repr

/-- Pydantic model `Employee`. -/
structure Employee where
  ID : Option Nat
  Name : String
  Email : String
  RoleID : Option Nat
  CreatedAt : Option Nat
  UpdatedAt : Option Nat
deriving DecidableEq, Repr

/-- Pydantic model `EmployeeAvailability` (the request/response model, not the
table). -/
structure EmployeeAvailability where
  ID : Option Nat
  EmployeeID : Nat
  DayOfWeek : Int
  StartTime : TimeOfDay
  EndTime : TimeOfDay
deriving DecidableEq, Repr

/-- Pydantic model `EmployeePreferences`. -/
structure EmployeePreferences where
  ID : Option Nat
  EmployeeID : Nat
  AvailabilityID : Option Nat
  PreferenceLevel : Int
deriving DecidableEq, Repr

/-! ### Table rows (database.py schema) -/

/-- A row of `Roles`: RoleID, RoleName (UNIQUE NOT NULL), Description,
CreatedAt/UpdatedAt defaulted to CURRENT_TIMESTAMP. -/
structure RoleRow where
  RoleID : Nat
  RoleName : String
  Description : Option String
  CreatedAt : Nat
  UpdatedAt : Nat
deriving DecidableEq, Repr

/-- A row of `Shifts`. -/
structure ShiftRow where
  ShiftID : Nat
  RoleID : Nat
  Description : Option String
  StartTime : Int
  EndTime : Int
  EmployeeID : Option Nat
  CreatedAt : Nat
  UpdatedAt : Nat
deriving DecidableEq, Repr

/-- A row of `Employees`. -/
structure EmployeeRow where
  EmployeeID : Nat
  Name : String
  Email : String
  RoleID : Option Nat
  CreatedAt : Nat
  UpdatedAt : Nat
deriving DecidableEq, Repr

/-- A row of `EmployeeAvailability`; the TIME columns hold the text the
handlers store, i.e. the `strftime("%H:%M:%S")` rendering. -/
structure AvailabilityRow where
  AvailabilityID : Nat
  EmployeeID : Nat
  DayOfWeek : Int
  StartTime : String
  EndTime : String
deriving DecidableEq, Repr

/-- A row of `EmployeePreferences` as created by database.py: the third data
column is `ShiftPatternID` — the schema has no `AvailabilityID` column. -/
structure PreferenceRow where
  PreferenceID : Nat
  EmployeeID : Nat
  ShiftPatternID : Option Nat
  PreferenceLevel : Int
deriving DecidableEq, Repr

/-- The persistent store: the five tables, each table's autoincrement counter
(the id the next successful insert receives), and the clock supplying
CURRENT_TIMESTAMP defaults. -/
structure DB where
  roles : List RoleRow
  shifts : List ShiftRow
  employees : List EmployeeRow
  availabilities : List AvailabilityRow
  preferences : List PreferenceRow
  nextRoleId : Nat
  nextShiftId : Nat
  nextEmployeeId : Nat
  nextAvailabilityId : Nat
  nextPreferenceId : Nat
  clock : Nat
deriving DecidableEq, Repr

/-! ### Outcomes -/

/-- A sqlite error surfaced to the `except Error` handler. -/
inductive SqlError where
  | noSuchColumn (table : String) (column : String)
deriving DecidableEq, Repr

/-- A python exception the handlers do not catch (FastAPI turns any of these
into a generic 500 response). -/
inductive PyError where
  | attributeErrorNoneCursor
  | typeErrorLoggerException
  | pydanticValidationError
  | valueErrorBadIsoFormat
deriving DecidableEq, Repr

/-- The `detail` of each `HTTPException` raise site in app.py, one constructor
per distinct message. -/
inductive Detail where
  | roleNameEmpty
  | roleExists
  | couldNotConnect
  | roleMissing
  | employeeMissing
  | startNotBeforeEnd
  | nameEmpty
  | invalidEmail
  | emailExists
  | availabilityExists
  | preferenceExists
  | storageError (e : SqlError)
deriving DecidableEq, Repr

/-- What an HTTP request to a handler produces: a 200 body, an
`HTTPException` with a status and detail, or an uncaught python exception. -/
inductive Outcome (α : Type) where
  | ok (value : α)
  | err (status : Nat) (detail : Detail)
  | exn (e : PyError)
deriving DecidableEq, Repr

/-- The HTTP status the client sees (FastAPI maps an uncaught exception to a
generic 500). -/
def Outcome.status : Outcome α → Nat
  | .ok _ => 200
  | .err s _ => s
  | .exn _ => 500

/-- Whether the outcome is a 200 success. -/
def Outcome.isOk : Outcome α → Bool
  | .ok _ => true
  | .err _ _ => false
  | .exn _ => false

/-- What happened to the sqlite connection of one request. -/
inductive ConnFate where
  | noConn
  | closed
  | leaked
deriving DecidableEq, Repr

/-- The full effect of one request: the outcome, the store afterwards, and the
fate of the handler's connection. -/
structure HResult (α : Type) where
  outcome : Outcome α
  db : DB
  conn : ConnFate
deriving DecidableEq, Repr

/-! ### Route handlers (app.py) -/

/-- POST /roles/add — `create_role`.  The blank-name check runs before
`create_connection`; the role-name lookup and the insert run inside
`try/except Error/finally: conn.close()`.  The pre-check already rejects an
exactly equal RoleName, so the sequential model's insert cannot hit the
UNIQUE(RoleName) constraint.  On success `role.ID = cursor.lastrowid` and the
role is returned; the store's CreatedAt/UpdatedAt defaults stay in the row
only. -/
def create_role (connOk : Bool) (db : DB) (role : Role) : HResult Role :=
  if pyStrip role.RoleName = "" then
    ⟨.err 400 .roleNameEmpty, db, .noConn⟩
  else if !connOk then
    ⟨.err 500 .couldNotConnect, db, .noConn⟩
  else if db.roles.any (fun r => r.RoleName == role.RoleName) then
    ⟨.err 400 .roleExists, db, .closed⟩
  else
    ⟨.ok { role with ID := some db.nextRoleId },
     { db with
        roles := db.roles ++
          [⟨db.nextRoleId, role.RoleName, role.Description, db.clock, db.clock⟩],
        nextRoleId := db.nextRoleId + 1 },
     .closed⟩

/-- GET /roles/get — `read_roles`.  No null-connection check and no
try/finally: with `conn = None`, `conn.cursor()` raises AttributeError.  The
response rows are built with the declared keyword arguments (ID, RoleName,
Description, Created_At, Updated_At). -/
def read_roles (connOk : Bool) (db : DB) : HResult (List Role) :=
  if !connOk then
    ⟨.exn .attributeErrorNoneCursor, db, .noConn⟩
  else
    ⟨.ok (db.roles.map (fun r =>
        ⟨some r.RoleID, r.RoleName, r.Description, some r.CreatedAt, some r.UpdatedAt⟩)),
     db, .closed⟩

/-- POST /shifts/add — `create_shift`.  Checks, in order: connection, role
existence, employee existence when an EmployeeID was given, then
`StartTime >= EndTime`. -/
def create_shift (connOk : Bool) (db : DB) (shift : Shift) : HResult Shift :=
  if !connOk then
    ⟨.err 500 .couldNotConnect, db, .noConn⟩
  else if !(db.roles.any (fun r => r.RoleID == shift.RoleID)) then
    ⟨.err 400 .roleMissing, db, .closed⟩
  else if shift.EmployeeID.isSome &&
      !(db.employees.any (fun e => some e.EmployeeID == shift.EmployeeID)) then
    ⟨.err 400 .employeeMissing, db, .closed⟩
  else if shift.EndTime ≤ shift.StartTime then
    ⟨.err 400 .startNotBeforeEnd, db, .closed⟩
  else
    ⟨.ok { shift with ID := some db.nextShiftId },
     { db with
        shifts := db.shifts ++
          [⟨db.nextShiftId, shift.RoleID, shift.Description, shift.StartTime,
            shift.EndTime, shift.EmployeeID, db.clock, db.clock⟩],
        nextShiftId := db.nextShiftId + 1 },
     .closed⟩

/-- GET /shifts/get — `read_shifts`.  No null check, no try/finally.  The ISO
strings the store returns for the DATETIME columns are parsed back with
`datetime.fromisoformat`; at this abstraction the store holds the structured
values, so the round-trip is the identity. -/
def read_shifts (connOk : Bool) (db : DB) : HResult (List Shift) :=
  if !connOk then
    ⟨.exn .attributeErrorNoneCursor, db, .noConn⟩
  else
    ⟨.ok (db.shifts.map (fun s =>
        ⟨some s.ShiftID, s.RoleID, s.Description, s.StartTime, s.EndTime,
         s.EmployeeID, some s.CreatedAt, some s.UpdatedAt⟩)),
     db, .closed⟩

/-- POST /employees/add — `create_employee`.  The empty-name test
(`if not employee.Name`, i.e. the string is empty) and the email regex test
run before `create_connection`; then duplicate email, then RoleID existence
when a RoleID was given. -/
def create_employee (connOk : Bool) (db : DB) (employee : Employee) :
    HResult Employee :=
  if employee.Name = "" then
    ⟨.err 400 .nameEmpty, db, .noConn⟩
  else if !(reMatch emailPattern employee.Email.data) then
    ⟨.err 400 .invalidEmail, db, .noConn⟩
  else if !connOk then
    ⟨.err 500 .couldNotConnect, db, .noConn⟩
  else if db.employees.any (fun e => e.Email == employee.Email) then
    ⟨.err 400 .emailExists, db, .closed⟩
  else if employee.RoleID.isSome &&
      !(db.roles.any (fun r => some r.RoleID == employee.RoleID)) then
    ⟨.err 400 .roleMissing, db, .closed⟩
  else
    ⟨.ok { employee with ID := some db.nextEmployeeId },
     { db with
        employees := db.employees ++
          [⟨db.nextEmployeeId, employee.Name, employee.Email, employee.RoleID,
            db.clock, db.clock⟩],
        nextEmployeeId := db.nextEmployeeId + 1 },
     .closed⟩

/-- GET /employees/get — `read_employees`.  No null check, no try/finally;
stored timestamps parsed back as in `read_shifts`. -/
def read_employees (connOk : Bool) (db : DB) : HResult (List Employee) :=
  if !connOk then
    ⟨.exn .attributeErrorNoneCursor, db, .noConn⟩
  else
    ⟨.ok (db.employees.map (fun e =>
        ⟨some e.EmployeeID, e.Name, e.Email, e.RoleID, some e.CreatedAt,
         some e.UpdatedAt⟩)),
     db, .closed⟩

/-- POST /availability/add — `create_employee_availability`.  Checks the
connection, renders both times with `strftime("%H:%M:%S")`, then checks
employee existence and an identical stored
(EmployeeID, DayOfWeek, StartTime, EndTime) tuple, comparing the rendered
strings; the insert stores the rendered strings. -/
def create_employee_availability (connOk : Bool) (db : DB)
    (employee_availability : EmployeeAvailability) :
    HResult EmployeeAvailability :=
  if !connOk then
    ⟨.err 500 .couldNotConnect, db, .noConn⟩
  else if !(db.employees.any
      (fun e => e.EmployeeID == employee_availability.EmployeeID)) then
    ⟨.err 400 .employeeMissing, db, .closed⟩
  else if db.availabilities.any (fun a =>
      a.EmployeeID == employee_availability.EmployeeID &&
      a.DayOfWeek == employee_availability.DayOfWeek &&
      a.StartTime == strftimeHMS employee_availability.StartTime &&
      a.EndTime == strftimeHMS employee_availability.EndTime) then
    ⟨.err 400 .availabilityExists, db, .closed⟩
  else
    ⟨.ok { employee_availability with ID := some db.nextAvailabilityId },
     { db with
        availabilities := db.availabilities ++
          [⟨db.nextAvailabilityId, employee_availability.EmployeeID,
            employee_availability.DayOfWeek,
            strftimeHMS employee_availability.StartTime,
            strftimeHMS employee_availability.EndTime⟩],
        nextAvailabilityId := db.nextAvailabilityId + 1 },
     .closed⟩

/-- The columns of the `EmployeePreferences` table as created by database.py:
the schema defines `ShiftPatternID` where app.py expects `AvailabilityID`. -/
def employeePreferencesColumns : List String :=
  ["PreferenceID", "EmployeeID", "ShiftPatternID", "PreferenceLevel"]

/-- `SELECT * FROM EmployeePreferences WHERE EmployeeID = ? AND
AvailabilityID = ?`: sqlite resolves the referenced column names against the
schema before evaluating the query and raises
`OperationalError("no such column: AvailabilityID")` for an unknown name. -/
def selectPreferencesByEmployeeAndAvailability (db : DB) (eid : Nat)
    (aid : Option Nat) : Except SqlError (List PreferenceRow) :=
  if employeePreferencesColumns.contains "AvailabilityID" then
    -- never reached: the schema has no AvailabilityID column, so there is no
    -- row field the second conjunct of the WHERE clause could read
    .ok (db.preferences.filter (fun p => p.EmployeeID == eid && aid.isSome))
  else
    .error (.noSuchColumn "EmployeePreferences" "AvailabilityID")

/-- `INSERT INTO EmployeePreferences (EmployeeID, AvailabilityID,
PreferenceLevel) VALUES (?, ?, ?)`: fails the same way, the column list names
a column the schema does not have. -/
def insertPreferenceWithAvailability (db : DB) (eid : Nat) (aid : Option Nat)
    (lvl : Int) : Except SqlError DB :=
  if employeePreferencesColumns.contains "AvailabilityID" then
    -- never reached, as above
    .ok db
  else
    .error (.noSuchColumn "EmployeePreferences" "AvailabilityID")

/-- POST /preferences/add — `create_employee_preference`.  Unlike the other
create handlers there is no null-connection check before `conn.cursor()`.
Inside the try block: employee existence; then
`SELECT * FROM EmployeeAvailability WHERE AvailabilityID = ?` (that column
exists — it is the table's primary key; a `None` parameter compares as SQL
NULL and matches no row).  When no availability row matches, the handler calls
`logger.exception()` with no message argument, which raises TypeError before
the 400 is constructed; `except Error` does not catch TypeError.  Otherwise
the duplicate check and the insert both name the missing
`EmployeePreferences.AvailabilityID` column: the resulting sqlite error is
caught, the transaction rolled back, and 400 returned with its message. -/
def create_employee_preference (connOk : Bool) (db : DB)
    (employee_preference : EmployeePreferences) :
    HResult EmployeePreferences :=
  if !connOk then
    ⟨.exn .attributeErrorNoneCursor, db, .noConn⟩
  else if !(db.employees.any
      (fun e => e.EmployeeID == employee_preference.EmployeeID)) then
    ⟨.err 400 .employeeMissing, db, .closed⟩
  else if !(db.availabilities.any
      (fun a => some a.AvailabilityID == employee_preference.AvailabilityID)) then
    ⟨.exn .typeErrorLoggerException, db, .closed⟩
  else
    match selectPreferencesByEmployeeAndAvailability db
        employee_preference.EmployeeID employee_preference.AvailabilityID with
    | .error e => ⟨.err 400 (.storageError e), db, .closed⟩
    | .ok existing =>
      if !existing.isEmpty then
        ⟨.err 400 .preferenceExists, db, .closed⟩
      else
        match insertPreferenceWithAvailability db
            employee_preference.EmployeeID employee_preference.AvailabilityID
            employee_preference.PreferenceLevel with
        | .error e => ⟨.err 400 (.storageError e), db, .closed⟩
        | .ok db2 =>
          ⟨.ok { employee_preference with ID := some db.nextPreferenceId },
           db2, .closed⟩

/-- pydantic construction of a response model from keyword arguments, as a
python list comprehension performs it element by element: the first
construction that raises aborts the whole comprehension with that
exception. -/
def buildAll (f : α → Except PyError β) : List α → Except PyError (List β)
  | [] => .ok []
  | x :: xs =>
    match f x with
    | .error e => .error e
    | .ok y =>
      match buildAll f xs with
      | .error e => .error e
      | .ok ys => .ok (y :: ys)

/-- pydantic construction of `EmployeeAvailability` from the keyword
arguments the caller actually supplied for the declared fields: the model
config ignores unknown keyword names, and a missing required field
(EmployeeID, DayOfWeek, StartTime or EndTime) raises ValidationError. -/
def employeeAvailabilityFromFields (ID : Option Nat) (EmployeeID : Option Nat)
    (DayOfWeek : Option Int) (StartTime : Option TimeOfDay)
    (EndTime : Option TimeOfDay) : Except PyError EmployeeAvailability :=
  match EmployeeID, DayOfWeek, StartTime, EndTime with
  | some e, some d, some s, some en => .ok ⟨ID, e, d, s, en⟩
  | _, _, _, _ => .error .pydanticValidationError

/-- pydantic construction of `EmployeePreferences` likewise; the required
fields are EmployeeID and PreferenceLevel (ID and AvailabilityID default to
None). -/
def employeePreferencesFromFields (ID : Option Nat) (EmployeeID : Option Nat)
    (AvailabilityID : Option Nat) (PreferenceLevel : Option Int) :
    Except PyError EmployeePreferences :=
  match EmployeeID, PreferenceLevel with
  | some e, some l => .ok ⟨ID, e, AvailabilityID, l⟩
  | _, _ => .error .pydanticValidationError

/-- `time.fromisoformat` on an `HH:MM:SS` string (ValueError otherwise,
modelled as `none`). -/
def parseTimeHMS (s : String) : Option TimeOfDay :=
  match s.data with
  | [h1, h2, ':', m1, m2, ':', s1, s2] =>
    if h1.isDigit && h2.isDigit && m1.isDigit && m2.isDigit &&
        s1.isDigit && s2.isDigit then
      some ⟨(h1.toNat - 48) * 10 + (h2.toNat - 48),
            (m1.toNat - 48) * 10 + (m2.toNat - 48),
            (s1.toNat - 48) * 10 + (s2.toNat - 48), 0⟩
    else none
  | _ => none

/-- GET /availability/get — the first `read_employee_availabilities` in
app.py.  No null check, no try/finally; `conn.close()` runs before the
comprehension builds the response models with the declared keyword arguments
(ID, EmployeeID, DayOfWeek, StartTime, EndTime), parsing the stored TIME text
with `time.fromisoformat`. -/
def read_employee_availabilities (connOk : Bool) (db : DB) :
    HResult (List EmployeeAvailability) :=
  if !connOk then
    ⟨.exn .attributeErrorNoneCursor, db, .noConn⟩
  else
    match buildAll (fun (a : AvailabilityRow) =>
        match parseTimeHMS a.StartTime, parseTimeHMS a.EndTime with
        | some s, some e =>
          employeeAvailabilityFromFields (some a.AvailabilityID)
            (some a.EmployeeID) (some a.DayOfWeek) (some s) (some e)
        | _, _ => .error .valueErrorBadIsoFormat) db.availabilities with
    | .ok vs => ⟨.ok vs, db, .closed⟩
    | .error e => ⟨.exn e, db, .closed⟩

/-- GET /availability/get/(employee_id) — the second
`read_employee_availabilities` in app.py (it shadows the first at module
level; both routes stay registered).  The SELECT filters by EmployeeID, and
`conn.close()` runs before the comprehension; but each
`EmployeeAvailability(...)` call passes only the keyword arguments
`id, employee_id, day_of_week, start_time, end_time` — none of them a
declared field of the model, so every required field is left unset. -/
def read_employee_availabilities_by_employee (connOk : Bool) (db : DB)
    (employee_id : Nat) : HResult (List EmployeeAvailability) :=
  if !connOk then
    ⟨.exn .attributeErrorNoneCursor, db, .noConn⟩
  else
    match buildAll (fun (_ : AvailabilityRow) =>
        employeeAvailabilityFromFields none none none none none)
        (db.availabilities.filter (fun a => a.EmployeeID == employee_id)) with
    | .ok vs => ⟨.ok vs, db, .closed⟩
    | .error e => ⟨.exn e, db, .closed⟩

/-- GET /preferences/get — the first `read_employee_preferences` in app.py.
No null check, no try/finally; rows are mapped with the declared keyword
arguments.  `row[2]` is the value of the schema's third data column,
ShiftPatternID, which the model calls AvailabilityID. -/
def read_employee_preferences (connOk : Bool) (db : DB) :
    HResult (List EmployeePreferences) :=
  if !connOk then
    ⟨.exn .attributeErrorNoneCursor, db, .noConn⟩
  else
    match buildAll (fun (p : PreferenceRow) =>
        employeePreferencesFromFields (some p.PreferenceID) (some p.EmployeeID)
          p.ShiftPatternID (some p.PreferenceLevel)) db.preferences with
    | .ok vs => ⟨.ok vs, db, .closed⟩
    | .error e => ⟨.exn e, db, .closed⟩

/-- GET /preferences/get/(employee_id) — the second
`read_employee_preferences` in app.py.  Filters by EmployeeID, then builds
each response model passing only the keyword arguments
`id, employee_id, availability_id, preference_level`, none of them a declared
field, so the required fields are left unset. -/
def read_employee_preferences_by_employee (connOk : Bool) (db : DB)
    (employee_id : Nat) : HResult (List EmployeePreferences) :=
  if !connOk then
    ⟨.exn .attributeErrorNoneCursor, db, .noConn⟩
  else
    match buildAll (fun (_ : PreferenceRow) =>
        employeePreferencesFromFields none none none none)
        (db.preferences.filter (fun p => p.EmployeeID == employee_id)) with
    | .ok vs => ⟨.ok vs, db, .closed⟩
    | .error e => ⟨.exn e, db, .closed⟩

/-- The email shape §4.4 of the spec describes, stated from the spec's words
(for comparison with the code's `reMatch emailPattern`): exactly one `@`
splitting the string into a non-empty local part and a non-empty domain part,
no `@` inside either segment, and at least one `.` in the domain part. -/
def specEmailShape (s : String) : Bool :=
  match s.data.dropWhile (fun c => c ≠ '@') with
  | '@' :: domain =>
    !(s.data.takeWhile (fun c => c ≠ '@')).isEmpty &&
    !domain.isEmpty && !(domain.contains '@') && domain.contains '.'
  | _ => false

/-! ### Concrete stores used by witnesses and counterexamples -/

/-- The empty store right after database.py created the tables; the clock is
an arbitrary instant. -/
def dbEmpty : DB := ⟨[], [], [], [], [], 1, 1, 1, 1, 1, 1700⟩

/-- A store holding one employee row (id 1). -/
def dbOneEmployee : DB :=
  ⟨[], [], [⟨1, "Jane", "jane@x.com", none, 1700, 1700⟩], [], [],
   1, 1, 2, 1, 1, 1701⟩

/-- One employee row and one availability row (id 1) for that employee. -/
def dbEmployeeAndAvailability : DB :=
  ⟨[], [], [⟨1, "Jane", "jane@x.com", none, 1700, 1700⟩],
   [⟨1, 1, 2, "09:00:00", "17:00:00"⟩], [], 1, 1, 2, 2, 1, 1702⟩

/-- One employee row and one preference row for that employee (the row can
only have been written outside this API, e.g. directly into the store). -/
def dbOnePreference : DB :=
  ⟨[], [], [⟨1, "Jane", "jane@x.com", none, 1700, 1700⟩], [],
   [⟨1, 1, none, 1⟩], 1, 1, 2, 1, 2, 1703⟩

/-! ### C1 -/

/-- C1: the filtered read routes do return [] when nothing matches, but on any
non-empty match set they raise pydantic ValidationError (surfaced as 500)
instead of returning the records: the response models are constructed with
snake_case keyword arguments that are not fields of the models, so the
required fields are missing.  Evaluated at a store holding one availability
row and one preference row for employee 1. -/
theorem C1_filtered_reads_raise_on_match :
    (read_employee_availabilities_by_employee true dbEmployeeAndAvailability 1).outcome
      = .exn .pydanticValidationError
  ∧ (read_employee_availabilities_by_employee true dbEmployeeAndAvailability 2).outcome
      = .ok []
  ∧ (read_employee_preferences_by_employee true dbOnePreference 1).outcome
      = .exn .pydanticValidationError
  ∧ (read_employee_preferences_by_employee true dbOnePreference 2).outcome
      = .ok [] :=
  ⟨rfl, rfl, rfl, rfl⟩

/-! ### C2 -/

/-- Resolving the duplicate-preference query always fails: the
EmployeePreferences schema has no AvailabilityID column. -/
theorem selectPreferences_noSuchColumn (db : DB) (eid : Nat) (aid : Option Nat) :
    selectPreferencesByEmployeeAndAvailability db eid aid =
      .error (.noSuchColumn "EmployeePreferences" "AvailabilityID") := rfl

/-- With a working connection, create_employee_preference collapses to three
terminal cases, none of which writes. -/
theorem create_employee_preference_cases (db : DB) (ep : EmployeePreferences) :
    create_employee_preference true db ep =
      if db.employees.any (fun e => e.EmployeeID == ep.EmployeeID) then
        (if db.availabilities.any
            (fun a => some a.AvailabilityID == ep.AvailabilityID) then
          ⟨.err 400 (.storageError
            (.noSuchColumn "EmployeePreferences" "AvailabilityID")), db, .closed⟩
        else ⟨.exn .typeErrorLoggerException, db, .closed⟩)
      else ⟨.err 400 .employeeMissing, db, .closed⟩ := by
  unfold create_employee_preference
  rw [selectPreferences_noSuchColumn]
  by_cases h1 : db.employees.any (fun e => e.EmployeeID == ep.EmployeeID) <;>
    by_cases h2 : db.availabilities.any
      (fun a => some a.AvailabilityID == ep.AvailabilityID) <;>
    simp [h1, h2]

/-- C2 is false as stated: with a working connection, an existing employee and
no matching availability row, the handler calls logger.exception() with no
message argument; the TypeError it raises escapes as a 500, not a 400 (and
still nothing is inserted). -/
theorem C2_counterexample :
    (create_employee_preference true dbOneEmployee ⟨none, 1, some 1, 1⟩).outcome
      = .exn .typeErrorLoggerException
  ∧ ((create_employee_preference true dbOneEmployee
        ⟨none, 1, some 1, 1⟩).outcome).status ≠ 400 :=
  ⟨rfl, by decide⟩

/-- C2 (amended): with a working connection create_employee_preference never
changes the store and never succeeds; when the employee is missing it answers
400, when the employee exists but the referenced availability row does not, a
no-argument logging call raises TypeError (surfaced as 500), and otherwise the
duplicate check names the schema's missing AvailabilityID column, so the
caught storage error rolls back and answers 400 with that message. -/
theorem C2_preference_create_never_inserts (db : DB) (ep : EmployeePreferences) :
    (create_employee_preference true db ep).db = db
  ∧ (∀ v, (create_employee_preference true db ep).outcome ≠ .ok v)
  ∧ (db.employees.any (fun e => e.EmployeeID == ep.EmployeeID) = true →
     db.availabilities.any (fun a => some a.AvailabilityID == ep.AvailabilityID)
       = true →
     (create_employee_preference true db ep).outcome =
       .err 400 (.storageError
         (.noSuchColumn "EmployeePreferences" "AvailabilityID"))) := by
  rw [create_employee_preference_cases]
  refine ⟨?_, ?_, ?_⟩
  · split <;> (try split) <;> rfl
  · intro v; split <;> (try split) <;> simp
  · intro h1 h2; simp [h1, h2]

/-- Witness for the amended C2 at a store where employee 1 and availability 1
exist. -/
theorem C2_preference_create_never_inserts_witness :
    (create_employee_preference true dbEmployeeAndAvailability
        ⟨none, 1, some 1, 2⟩).outcome
      = .err 400 (.storageError
          (.noSuchColumn "EmployeePreferences" "AvailabilityID")) :=
  (C2_preference_create_never_inserts dbEmployeeAndAvailability
    ⟨none, 1, some 1, 2⟩).2.2 rfl rfl

/-! ### C3 -/

/-- create_role never leaks a connection: every path after acquisition runs
the finally-block close. -/
theorem create_role_conn_fate (co : Bool) (db : DB) (r : Role) :
    (create_role co db r).conn ≠ .leaked := by
  unfold create_role
  repeat' split
  all_goals simp

/-- create_shift never leaks a connection. -/
theorem create_shift_conn_fate (co : Bool) (db : DB) (s : Shift) :
    (create_shift co db s).conn ≠ .leaked := by
  unfold create_shift
  repeat' split
  all_goals simp

/-- create_employee never leaks a connection. -/
theorem create_employee_conn_fate (co : Bool) (db : DB) (e : Employee) :
    (create_employee co db e).conn ≠ .leaked := by
  unfold create_employee
  repeat' split
  all_goals simp

/-- create_employee_availability never leaks a connection. -/
theorem create_employee_availability_conn_fate (co : Bool) (db : DB)
    (ea : EmployeeAvailability) :
    (create_employee_availability co db ea).conn ≠ .leaked := by
  unfold create_employee_availability
  repeat' split
  all_goals simp

/-- create_employee_preference never leaks a connection (when the cursor call
crashes, no connection had been established). -/
theorem create_employee_preference_conn_fate (co : Bool) (db : DB)
    (p : EmployeePreferences) :
    (create_employee_preference co db p).conn ≠ .leaked := by
  unfold create_employee_preference
  repeat' split
  all_goals simp

/-- read_roles never leaks a connection. -/
theorem read_roles_conn_fate (co : Bool) (db : DB) :
    (read_roles co db).conn ≠ .leaked := by
  unfold read_roles
  repeat' split
  all_goals simp

/-- read_shifts never leaks a connection. -/
theorem read_shifts_conn_fate (co : Bool) (db : DB) :
    (read_shifts co db).conn ≠ .leaked := by
  unfold read_shifts
  repeat' split
  all_goals simp

/-- read_employees never leaks a connection. -/
theorem read_employees_conn_fate (co : Bool) (db : DB) :
    (read_employees co db).conn ≠ .leaked := by
  unfold read_employees
  repeat' split
  all_goals simp

/-- read_employee_availabilities never leaks a connection (close runs before
the response comprehension). -/
theorem read_employee_availabilities_conn_fate (co : Bool) (db : DB) :
    (read_employee_availabilities co db).conn ≠ .leaked := by
  unfold read_employee_availabilities
  repeat' split
  all_goals simp

/-- The filtered availability read never leaks a connection. -/
theorem read_employee_availabilities_by_employee_conn_fate (co : Bool)
    (db : DB) (i : Nat) :
    (read_employee_availabilities_by_employee co db i).conn ≠ .leaked := by
  unfold read_employee_availabilities_by_employee
  repeat' split
  all_goals simp

/-- read_employee_preferences never leaks a connection. -/
theorem read_employee_preferences_conn_fate (co : Bool) (db : DB) :
    (read_employee_preferences co db).conn ≠ .leaked := by
  unfold read_employee_preferences
  repeat' split
  all_goals simp

/-- The filtered preference read never leaks a connection. -/
theorem read_employee_preferences_by_employee_conn_fate (co : Bool)
    (db : DB) (i : Nat) :
    (read_employee_preferences_by_employee co db i).conn ≠ .leaked := by
  unfold read_employee_preferences_by_employee
  repeat' split
  all_goals simp

/-- C3 is false as stated: create_employee_preference performs no
null-connection check; when create_connection returns None, `conn.cursor()`
raises AttributeError (a generic 500), not the checked
"Could not connect to the database" 500 response the other create handlers
build. -/
theorem C3_counterexample :
    (create_employee_preference false dbEmpty ⟨none, 1, some 1, 1⟩).outcome
      = .exn .attributeErrorNoneCursor
  ∧ (create_employee_preference false dbEmpty ⟨none, 1, some 1, 1⟩).outcome
      ≠ .err 500 .couldNotConnect :=
  ⟨rfl, by decide⟩

/-- C3 (amended): the create handlers for roles, shifts, employees and
availability check the handle and answer the 500 connection error (for roles
and employees, once the checks that precede create_connection pass); but
create_employee_preference and all six read handlers perform no such check —
with no connection they raise AttributeError instead — and every handler that
did acquire a connection closes it on all paths (none leaks). -/
theorem C3_connection_discipline :
    (∀ (db : DB) (s : Shift),
      (create_shift false db s).outcome = .err 500 .couldNotConnect)
  ∧ (∀ (db : DB) (ea : EmployeeAvailability),
      (create_employee_availability false db ea).outcome
        = .err 500 .couldNotConnect)
  ∧ (∀ (db : DB) (r : Role), pyStrip r.RoleName ≠ "" →
      (create_role false db r).outcome = .err 500 .couldNotConnect)
  ∧ (∀ (db : DB) (e : Employee), e.Name ≠ "" →
      reMatch emailPattern e.Email.data = true →
      (create_employee false db e).outcome = .err 500 .couldNotConnect)
  ∧ (∀ (db : DB) (p : EmployeePreferences),
      (create_employee_preference false db p).outcome
        = .exn .attributeErrorNoneCursor)
  ∧ (∀ db : DB, (read_roles false db).outcome = .exn .attributeErrorNoneCursor)
  ∧ (∀ db : DB, (read_shifts false db).outcome = .exn .attributeErrorNoneCursor)
  ∧ (∀ db : DB,
      (read_employees false db).outcome = .exn .attributeErrorNoneCursor)
  ∧ (∀ db : DB, (read_employee_availabilities false db).outcome
      = .exn .attributeErrorNoneCursor)
  ∧ (∀ (db : DB) (i : Nat),
      (read_employee_availabilities_by_employee false db i).outcome
        = .exn .attributeErrorNoneCursor)
  ∧ (∀ db : DB, (read_employee_preferences false db).outcome
      = .exn .attributeErrorNoneCursor)
  ∧ (∀ (db : DB) (i : Nat),
      (read_employee_preferences_by_employee false db i).outcome
        = .exn .attributeErrorNoneCursor)
  ∧ (∀ (co : Bool) (db : DB) (r : Role), (create_role co db r).conn ≠ .leaked)
  ∧ (∀ (co : Bool) (db : DB) (s : Shift), (create_shift co db s).conn ≠ .leaked)
  ∧ (∀ (co : Bool) (db : DB) (e : Employee),
      (create_employee co db e).conn ≠ .leaked)
  ∧ (∀ (co : Bool) (db : DB) (ea : EmployeeAvailability),
      (create_employee_availability co db ea).conn ≠ .leaked)
  ∧ (∀ (co : Bool) (db : DB) (p : EmployeePreferences),
      (create_employee_preference co db p).conn ≠ .leaked)
  ∧ (∀ (co : Bool) (db : DB), (read_roles co db).conn ≠ .leaked)
  ∧ (∀ (co : Bool) (db : DB), (read_shifts co db).conn ≠ .leaked)
  ∧ (∀ (co : Bool) (db : DB), (read_employees co db).conn ≠ .leaked)
  ∧ (∀ (co : Bool) (db : DB),
      (read_employee_availabilities co db).conn ≠ .leaked)
  ∧ (∀ (co : Bool) (db : DB) (i : Nat),
      (read_employee_availabilities_by_employee co db i).conn ≠ .leaked)
  ∧ (∀ (co : Bool) (db : DB),
      (read_employee_preferences co db).conn ≠ .leaked)
  ∧ (∀ (co : Bool) (db : DB) (i : Nat),
      (read_employee_preferences_by_employee co db i).conn ≠ .leaked) := by
  refine ⟨fun db s => rfl, fun db ea => rfl, ?_, ?_, fun db p => rfl,
    fun db => rfl, fun db => rfl, fun db => rfl, fun db => rfl,
    fun db i => rfl, fun db => rfl, fun db i => rfl,
    create_role_conn_fate, create_shift_conn_fate, create_employee_conn_fate,
    create_employee_availability_conn_fate,
    create_employee_preference_conn_fate, read_roles_conn_fate,
    read_shifts_conn_fate, read_employees_conn_fate,
    read_employee_availabilities_conn_fate,
    read_employee_availabilities_by_employee_conn_fate,
    read_employee_preferences_conn_fate,
    read_employee_preferences_by_employee_conn_fate⟩
  · intro db r h
    simp [create_role, h]
  · intro db e h1 h2
    simp [create_employee, h1, h2]

/-- Witness for the amended C3: the checking handlers answer the 500 detail at
concrete inputs. -/
theorem C3_connection_discipline_witness :
    (create_role false dbEmpty ⟨none, "Cashier", none, none, none⟩).outcome
      = .err 500 .couldNotConnect
  ∧ (create_employee false dbEmpty
        ⟨none, "Jane", "jane@x.com", none, none, none⟩).outcome
      = .err 500 .couldNotConnect :=
  ⟨C3_connection_discipline.2.2.1 dbEmpty ⟨none, "Cashier", none, none, none⟩
      (by decide),
   C3_connection_discipline.2.2.2.1 dbEmpty
      ⟨none, "Jane", "jane@x.com", none, none, none⟩ (by decide) (by decide)⟩

/-! ### C4 -/

/-- C4 is false as stated: "a@b.c@d" has two "@" characters, so it does not
have the spec's local@domain.tld shape, yet create_employee accepts it on an
empty store and inserts the employee — re.match only anchors at the start, so
the prefix "a@b.c" satisfies the pattern and the trailing "@d" is ignored. -/
theorem C4_counterexample :
    specEmailShape "a@b.c@d" = false
  ∧ (create_employee true dbEmpty
        ⟨none, "x", "a@b.c@d", none, none, none⟩).outcome
      = .ok ⟨some 1, "x", "a@b.c@d", none, none, none⟩ :=
  ⟨by decide, rfl⟩

/-- C4 (amended): create_employee answers 400 whenever no prefix of the email
matches the regular expression (in particular whenever the email has no "@"
or no "." after the first "@"-free local part); and whenever some prefix does
match, the email-format rejection is never the outcome — even if the email
continues with a second "@" after the matched prefix. -/
theorem C4_email_gate (connOk : Bool) (db : DB) (e : Employee) :
    (reMatch emailPattern e.Email.data = false →
      ((create_employee connOk db e).outcome).status = 400)
  ∧ (reMatch emailPattern e.Email.data = true →
      (create_employee connOk db e).outcome ≠ .err 400 .invalidEmail) := by
  constructor
  · intro h
    unfold create_employee
    by_cases h1 : e.Name = "" <;> simp [h1, h, Outcome.status]
  · intro h
    unfold create_employee
    by_cases h1 : e.Name = ""
    · simp [h1]
    · simp [h1, h]
      all_goals repeat' split
      all_goals simp

/-- Witness for the amended C4: an email with no "@" at all is rejected with
status 400. -/
theorem C4_email_gate_witness :
    ((create_employee true dbEmpty
        ⟨none, "x", "not-an-email", none, none, none⟩).outcome).status = 400 :=
  (C4_email_gate true dbEmpty ⟨none, "x", "not-an-email", none, none, none⟩).1
    (by decide)

/-! ### C5 -/

/-- What a successful create_role implies: the name was not blank, no stored
role had the exact same raw name, the returned value is the request with the
assigned id, and the store gained exactly the new row. -/
theorem create_role_ok_elim (db : DB) (r : Role) (v : Role)
    (h : (create_role true db r).outcome = .ok v) :
    pyStrip r.RoleName ≠ ""
  ∧ db.roles.any (fun x => x.RoleName == r.RoleName) = false
  ∧ v = { r with ID := some db.nextRoleId }
  ∧ (create_role true db r).db =
      { db with
        roles := db.roles ++
          [⟨db.nextRoleId, r.RoleName, r.Description, db.clock, db.clock⟩],
        nextRoleId := db.nextRoleId + 1 } := by
  unfold create_role at h ⊢
  by_cases h1 : pyStrip r.RoleName = ""
  · simp [h1] at h
  · by_cases h2 : db.roles.any (fun x => x.RoleName == r.RoleName)
    · simp [h1, h2] at h
    · simp [h1, h2] at h ⊢
      exact h.symm

/-- C5 is false as stated: "a" and "a " are equal after trimming, the first
create_role succeeds, and the second also succeeds — the duplicate check
compares the raw, untrimmed name. -/
theorem C5_counterexample :
    pyStrip "a" = pyStrip "a "
  ∧ ((create_role true dbEmpty ⟨none, "a", none, none, none⟩).outcome).isOk
      = true
  ∧ ((create_role true (create_role true dbEmpty
        ⟨none, "a", none, none, none⟩).db
        ⟨none, "a ", none, none, none⟩).outcome).isOk = true :=
  ⟨by decide, rfl, rfl⟩

/-- C5 (amended): create_role answers 400 whenever the name is blank after
trimming; and when two calls carry the exact same raw name and the first
succeeds, the second answers 400 "role exists".  Names that differ only in
surrounding whitespace do not conflict (see the counterexample). -/
theorem C5_role_name_uniqueness :
    (∀ (connOk : Bool) (db : DB) (r : Role), pyStrip r.RoleName = "" →
      (create_role connOk db r).outcome = .err 400 .roleNameEmpty)
  ∧ (∀ (db : DB) (r1 r2 : Role) (v : Role), r2.RoleName = r1.RoleName →
      (create_role true db r1).outcome = .ok v →
      (create_role true (create_role true db r1).db r2).outcome
        = .err 400 .roleExists) := by
  constructor
  · intro connOk db r h
    simp [create_role, h]
  · intro db r1 r2 v hname h1
    obtain ⟨hblank, hdup, hv, hdb⟩ := create_role_ok_elim db r1 v h1
    rw [hdb]
    unfold create_role
    rw [hname]
    simp [hblank, List.any_append]

/-- Witness for the amended C5: creating "Cashier" twice succeeds then answers
400. -/
theorem C5_role_name_uniqueness_witness :
    (create_role true (create_role true dbEmpty
        ⟨none, "Cashier", none, none, none⟩).db
        ⟨none, "Cashier", none, none, none⟩).outcome = .err 400 .roleExists :=
  C5_role_name_uniqueness.2 dbEmpty ⟨none, "Cashier", none, none, none⟩
    ⟨none, "Cashier", none, none, none⟩ ⟨some 1, "Cashier", none, none, none⟩
    rfl rfl

/-! ### C6 -/

/-- C6 is false as stated: day_of_week 9 lies outside 0–6, yet the request is
accepted and the row stored with DayOfWeek 9 — create_employee_availability
validates only employee existence and tuple duplication, never the day
range. -/
theorem C6_counterexample :
    ((create_employee_availability true dbOneEmployee
        ⟨none, 1, 9, ⟨9, 0, 0, 0⟩, ⟨17, 0, 0, 0⟩⟩).outcome).isOk = true
  ∧ (create_employee_availability true dbOneEmployee
        ⟨none, 1, 9, ⟨9, 0, 0, 0⟩, ⟨17, 0, 0, 0⟩⟩).db.availabilities
      = [⟨1, 1, 9, "09:00:00", "17:00:00"⟩] :=
  ⟨rfl, by decide⟩

/-- C6 (amended): create_employee_availability applies no range check to
day_of_week: whenever the employee exists and no identical normalized tuple
is stored, the request is accepted whatever integer day_of_week holds, and
the stored row carries that integer unchanged. -/
theorem C6_day_of_week_unchecked (db : DB) (ea : EmployeeAvailability)
    (hemp : db.employees.any (fun e => e.EmployeeID == ea.EmployeeID) = true)
    (hdup : db.availabilities.any (fun a =>
        a.EmployeeID == ea.EmployeeID && a.DayOfWeek == ea.DayOfWeek &&
        a.StartTime == strftimeHMS ea.StartTime &&
        a.EndTime == strftimeHMS ea.EndTime) = false) :
    (create_employee_availability true db ea).outcome
      = .ok { ea with ID := some db.nextAvailabilityId }
  ∧ (create_employee_availability true db ea).db.availabilities
      = db.availabilities ++
        [⟨db.nextAvailabilityId, ea.EmployeeID, ea.DayOfWeek,
          strftimeHMS ea.StartTime, strftimeHMS ea.EndTime⟩] := by
  unfold create_employee_availability
  simp [hemp, hdup]

/-- Witness for the amended C6 at the negative day −3. -/
theorem C6_day_of_week_unchecked_witness :
    (create_employee_availability true dbOneEmployee
        ⟨none, 1, -3, ⟨8, 30, 0, 0⟩, ⟨12, 0, 0, 0⟩⟩).outcome
      = .ok ⟨some 1, 1, -3, ⟨8, 30, 0, 0⟩, ⟨12, 0, 0, 0⟩⟩ :=
  (C6_day_of_week_unchecked dbOneEmployee
    ⟨none, 1, -3, ⟨8, 30, 0, 0⟩, ⟨12, 0, 0, 0⟩⟩ rfl rfl).1

/-! ### C7 -/

/-- C7: none of the five create handlers changes the store unless it answers
success — every precondition rejection happens before the insert, and a
storage error during the write rolls the transaction back, so every non-2xx
outcome leaves the store exactly as it was. -/
theorem C7_no_write_without_success :
    (∀ (co : Bool) (db : DB) (r : Role),
      ((create_role co db r).outcome).isOk = false →
        (create_role co db r).db = db)
  ∧ (∀ (co : Bool) (db : DB) (s : Shift),
      ((create_shift co db s).outcome).isOk = false →
        (create_shift co db s).db = db)
  ∧ (∀ (co : Bool) (db : DB) (e : Employee),
      ((create_employee co db e).outcome).isOk = false →
        (create_employee co db e).db = db)
  ∧ (∀ (co : Bool) (db : DB) (ea : EmployeeAvailability),
      ((create_employee_availability co db ea).outcome).isOk = false →
        (create_employee_availability co db ea).db = db)
  ∧ (∀ (co : Bool) (db : DB) (p : EmployeePreferences),
      ((create_employee_preference co db p).outcome).isOk = false →
        (create_employee_preference co db p).db = db) := by
  refine ⟨?_, ?_, ?_, ?_, ?_⟩
  · intro co db r
    unfold create_role
    repeat' split
    all_goals simp [Outcome.isOk]
  · intro co db s
    unfold create_shift
    repeat' split
    all_goals simp [Outcome.isOk]
  · intro co db e
    unfold create_employee
    repeat' split
    all_goals simp [Outcome.isOk]
  · intro co db ea
    unfold create_employee_availability
    repeat' split
    all_goals simp [Outcome.isOk]
  · intro co db p
    unfold create_employee_preference
    repeat' split
    all_goals simp [Outcome.isOk, insertPreferenceWithAvailability,
      employeePreferencesColumns]

/-- Witness for C7: a blank-name create_role answers an error and leaves the
empty store empty. -/
theorem C7_no_write_without_success_witness :
    (create_role true dbEmpty ⟨none, " ", none, none, none⟩).db = dbEmpty :=
  C7_no_write_without_success.1 true dbEmpty ⟨none, " ", none, none, none⟩ rfl

/-! ### C8 -/

/-- C8 is false as stated: the successful response carries the assigned id but
Created_At/Updated_At stay None, while the stored row received the store
defaults (the clock value 1700) — the handler sets only role.ID before
returning the request object. -/
theorem C8_counterexample :
    (create_role true dbEmpty ⟨none, "Host", none, none, none⟩).outcome
      = .ok ⟨some 1, "Host", none, none, none⟩
  ∧ (create_role true dbEmpty ⟨none, "Host", none, none, none⟩).db.roles
      = [⟨1, "Host", none, 1700, 1700⟩]
  ∧ (create_role true dbEmpty ⟨none, "Host", none, none, none⟩).outcome
      ≠ .ok ⟨some 1, "Host", none, some 1700, some 1700⟩ :=
  ⟨rfl, rfl, by decide⟩

/-- C8 (amended): on success create_role returns the request with the
server-assigned id and the request's own (typically absent) timestamp fields,
while the store-defaulted timestamps exist only in the inserted row. -/
theorem C8_role_response_fields (db : DB) (r : Role) (v : Role)
    (h : (create_role true db r).outcome = .ok v) :
    v = { r with ID := some db.nextRoleId }
  ∧ v.Created_At = r.Created_At
  ∧ v.Updated_At = r.Updated_At
  ∧ (create_role true db r).db.roles
      = db.roles ++
        [⟨db.nextRoleId, r.RoleName, r.Description, db.clock, db.clock⟩] := by
  obtain ⟨h1, h2, hv, hdb⟩ := create_role_ok_elim db r v h
  subst hv
  exact ⟨rfl, rfl, rfl, by rw [hdb]⟩

/-- Witness for the amended C8. -/
theorem C8_role_response_fields_witness :
    (create_role true dbEmpty ⟨none, "Greeter", none, none, none⟩).db.roles
      = dbEmpty.roles ++
        [⟨dbEmpty.nextRoleId, "Greeter", none, dbEmpty.clock, dbEmpty.clock⟩] :=
  (C8_role_response_fields dbEmpty ⟨none, "Greeter", none, none, none⟩
    ⟨some 1, "Greeter", none, none, none⟩ rfl).2.2.2

/-! ### C9 -/

/-- C9: whenever start_time >= end_time, create_shift answers 400 — through
the time-order rejection when both reference checks pass, and through the
role or employee rejection (still 400) when they do not. -/
theorem C9_shift_rejects_bad_time_order (db : DB) (shift : Shift)
    (h : shift.EndTime ≤ shift.StartTime) :
    ((create_shift true db shift).outcome).status = 400 := by
  unfold create_shift
  repeat' split
  all_goals simp_all [Outcome.status]

/-- Witness for C9: a shift ending (time 40) before it starts (time 50) on
the empty store answers 400 (role 1 does not exist — still 400). -/
theorem C9_shift_rejects_bad_time_order_witness :
    ((create_shift true dbEmpty
        ⟨none, 1, none, 50, 40, none, none, none⟩).outcome).status = 400 :=
  C9_shift_rejects_bad_time_order dbEmpty
    ⟨none, 1, none, 50, 40, none, none, none⟩ (by decide)

/-! ### C10 -/

/-- What a successful create_employee_availability implies: the employee
existed and the store gained exactly the normalized row. -/
theorem create_employee_availability_ok_elim (db : DB)
    (ea v : EmployeeAvailability)
    (h : (create_employee_availability true db ea).outcome = .ok v) :
    db.employees.any (fun e => e.EmployeeID == ea.EmployeeID) = true
  ∧ (create_employee_availability true db ea).db =
      { db with
        availabilities := db.availabilities ++
          [⟨db.nextAvailabilityId, ea.EmployeeID, ea.DayOfWeek,
            strftimeHMS ea.StartTime, strftimeHMS ea.EndTime⟩],
        nextAvailabilityId := db.nextAvailabilityId + 1 } := by
  unfold create_employee_availability at h ⊢
  by_cases h1 : db.employees.any (fun e => e.EmployeeID == ea.EmployeeID)
  · by_cases h2 : db.availabilities.any (fun a =>
        a.EmployeeID == ea.EmployeeID && a.DayOfWeek == ea.DayOfWeek &&
        a.StartTime == strftimeHMS ea.StartTime &&
        a.EndTime == strftimeHMS ea.EndTime)
    · simp [h1, h2] at h
    · simp [h1, h2]
  · simp [h1] at h

/-- C10: both times are rendered to HH:MM:SS before the duplicate comparison
and the insert, so when a second request names the same employee and day and
its times render to the same strings (identical up to that normalization,
e.g. differing only in microseconds) and the first call succeeded, the second
call answers 400 "availability exists". -/
theorem C10_availability_duplicate (db : DB)
    (r1 r2 v : EmployeeAvailability)
    (heid : r2.EmployeeID = r1.EmployeeID) (hday : r2.DayOfWeek = r1.DayOfWeek)
    (hs : strftimeHMS r2.StartTime = strftimeHMS r1.StartTime)
    (he : strftimeHMS r2.EndTime = strftimeHMS r1.EndTime)
    (h1 : (create_employee_availability true db r1).outcome = .ok v) :
    (create_employee_availability true
        (create_employee_availability true db r1).db r2).outcome
      = .err 400 .availabilityExists := by
  obtain ⟨hemp, hdb⟩ := create_employee_availability_ok_elim db r1 v h1
  rw [hdb]
  unfold create_employee_availability
  rw [heid, hday, hs, he]
  simp [hemp, List.any_append]

/-- Witness for C10: the second request differs from the first only in a
microsecond component, which the HH:MM:SS normalization drops. -/
theorem C10_availability_duplicate_witness :
    (create_employee_availability true
        (create_employee_availability true dbOneEmployee
          ⟨none, 1, 2, ⟨9, 0, 0, 0⟩, ⟨17, 0, 0, 0⟩⟩).db
        ⟨none, 1, 2, ⟨9, 0, 0, 250000⟩, ⟨17, 0, 0, 0⟩⟩).outcome
      = .err 400 .availabilityExists :=
  C10_availability_duplicate dbOneEmployee
    ⟨none, 1, 2, ⟨9, 0, 0, 0⟩, ⟨17, 0, 0, 0⟩⟩
    ⟨none, 1, 2, ⟨9, 0, 0, 250000⟩, ⟨17, 0, 0, 0⟩⟩
    ⟨some 1, 1, 2, ⟨9, 0, 0, 0⟩, ⟨17, 0, 0, 0⟩⟩ rfl rfl rfl rfl rfl
